import Mathlib

/-!
Verification of the change-detection and adaptive-polling engine of the
watchdog_monitoring repository.

The definitions below are a shallow embedding of the Python sources:

  * src/core/excel_parser.py  (dump_excel_cells_with_timeout, hash_excel_content,
                               get_cell_formula, serialize_cell_value)
  * src/core/comparison.py    (compare_excel_changes, classify_change_type,
                               has_external_reference)
  * src/core/baseline.py      (baseline_file_path, save_baseline)
  * src/core/watcher.py       (ActivePollingHandler, ExcelFileEventHandler.on_moved)
  * src/utils/cache.py        (copy_to_cache)
  * src/config/settings.py    (polling constants, folders, supported extensions)

Python dicts are modelled as association lists (insertion order preserved,
keys unique); machine-level hashing (hashlib.md5) is implemented bit-for-bit
over `Nat`; JSON serialization mirrors `json.dumps(..., sort_keys=True,
ensure_ascii=False)` with its default separators.
-/

/-! ## Data model

`Scalar` models the JSON-serializable cell values produced by
`serialize_cell_value` (src/core/excel_parser.py): strings (including
ISO-formatted datetimes), ints and bools.  Floats are outside the model.
`Cell` models the per-cell record `{"formula": fstr, "value": vstr}`.
A worksheet map and a workbook snapshot are Python dicts, modelled as
association lists whose key order records insertion order. -/

inductive Scalar where
  | str (s : String)
  | int (n : Int)
  | bool (b : Bool)
deriving DecidableEq, Repr

structure CellRec where
  formula : Option String
  value : Option Scalar
deriving DecidableEq, Repr

/-- WorksheetMap: cell address -> CellRec, as a Python dict. -/
abbrev WsMap := List (String × CellRec)

/-- WorkbookSnapshot: worksheet name -> WorksheetMap, as a Python dict. -/
abbrev Snapshot := List (String × WsMap)

/-! ## Python value equality (`==`)

Python compares `True == 1` and `False == 0` as equal (bool is a subclass of
int); strings never equal numbers.  `None == None` holds.  This is the
equality used by `old_val != new_val` in src/core/comparison.py. -/

def Scalar.pyEq : Scalar → Scalar → Bool
  | .str a, .str b => a = b
  | .int a, .int b => a = b
  | .bool a, .bool b => a = b
  | .int a, .bool b => a = (if b then 1 else 0)
  | .bool a, .int b => (if a then (1 : Int) else 0) = b
  | _, _ => false

def optPyEq : Option Scalar → Option Scalar → Bool
  | none, none => true
  | some a, some b => a.pyEq b
  | _, _ => false

/-! ## Key-sorted canonicalization

`json.dumps(..., sort_keys=True)` emits dict keys in ascending string order.
`insertKey`/`sortKeys` implement that ordering (insertion sort on the key of
each association-list entry, Unicode code-point comparison, matching Python's
`str < str`). -/

/-- Code-point comparison of characters (Python string `<` compares by
Unicode code point). -/
def charLt (a b : Char) : Bool := a.toNat < b.toNat

/-- Lexicographic order on character lists: Python's `str < str`. -/
def listCharLt : List Char → List Char → Bool
  | [], [] => false
  | [], _ :: _ => true
  | _ :: _, [] => false
  | a :: as, b :: bs =>
      if charLt a b then true else if charLt b a then false else listCharLt as bs

def strLt (a b : String) : Bool := listCharLt a.data b.data

def insertKey {α : Type} (p : String × α) : List (String × α) → List (String × α)
  | [] => [p]
  | q :: qs => if strLt p.1 q.1 then p :: q :: qs else q :: insertKey p qs

def sortKeys {α : Type} : List (String × α) → List (String × α)
  | [] => []
  | p :: ps => insertKey p (sortKeys ps)

/-- Key lookup in an association list (Python `d.get(k)`). -/
def lookupKey {α : Type} : List (String × α) → String → Option α
  | [], _ => none
  | (k, v) :: t, key => if k = key then some v else lookupKey t key

/-! ## JSON serialization, following CPython's `json.dumps` with
`sort_keys=True, ensure_ascii=False` and the default separators
`(", ", ": ")`.  String escaping follows `py_encode_basestring`:
backslash, double quote and control characters are escaped, everything
else is passed through. -/

def hexDigit (n : Nat) : Char :=
  if n < 10 then Char.ofNat (48 + n) else Char.ofNat (87 + n)

def jsonEscapeChar (c : Char) : String :=
  if c = '\\' then "\\\\"
  else if c = '"' then "\\\""
  else if c = '\n' then "\\n"
  else if c = '\t' then "\\t"
  else if c = '\r' then "\\r"
  else if c.toNat = 8 then "\\b"
  else if c.toNat = 12 then "\\f"
  else if c.toNat < 32 then
    String.mk ['\\', 'u', '0', '0', hexDigit (c.toNat / 16), hexDigit (c.toNat % 16)]
  else String.mk [c]

def jsonString (s : String) : String :=
  "\"" ++ String.join (s.data.map jsonEscapeChar) ++ "\""

def jsonOptString : Option String → String
  | none => "null"
  | some s => jsonString s

def jsonScalar : Option Scalar → String
  | none => "null"
  | some (.str s) => jsonString s
  | some (.int n) => toString n
  | some (.bool b) => if b then "true" else "false"

/-- JSON text of one cell record; keys "formula" < "value" are already in
sorted order, as written by dump_excel_cells_with_timeout. -/
def jsonCell (c : CellRec) : String :=
  "\x7b" ++ jsonString "formula" ++ ": " ++ jsonOptString c.formula ++ ", "
    ++ jsonString "value" ++ ": " ++ jsonScalar c.value ++ "\x7d"

def jsonWs (ws : WsMap) : String :=
  "\x7b" ++ String.intercalate ", "
    ((sortKeys ws).map (fun p => jsonString p.1 ++ ": " ++ jsonCell p.2)) ++ "\x7d"

/-- `json.dumps(cells_dict, sort_keys=True, ensure_ascii=False)` for a
workbook snapshot. -/
def jsonSnapshot (s : Snapshot) : String :=
  "\x7b" ++ String.intercalate ", "
    ((sortKeys s).map (fun p => jsonString p.1 ++ ": " ++ jsonWs p.2)) ++ "\x7d"

/-! ## UTF-8 encoding (Python `str.encode('utf-8')`), bytes as `Nat < 256`. -/

def utf8Char (c : Char) : List Nat :=
  let n := c.toNat
  if n < 128 then [n]
  else if n < 2048 then [192 + n / 64, 128 + n % 64]
  else if n < 65536 then [224 + n / 4096, 128 + (n / 64) % 64, 128 + n % 64]
  else [240 + n / 262144, 128 + (n / 4096) % 64, 128 + (n / 64) % 64, 128 + n % 64]

def utf8 (s : String) : List Nat :=
  s.data.foldr (fun c acc => utf8Char c ++ acc) []

/-! ## MD5 (hashlib.md5), RFC 1321, over byte lists.
32-bit machine words are `Nat` reduced mod `2 ^ 32`. -/

def M32 : Nat := 4294967296

def add32 (a b : Nat) : Nat := (a + b) % M32

def not32 (x : Nat) : Nat := 4294967295 - x % M32

def rotl32 (x s : Nat) : Nat :=
  ((x % M32) * 2 ^ s % M32 + (x % M32) / 2 ^ (32 - s)) % M32

/-- The 64 MD5 sine-derived constants. -/
def md5K : List Nat :=
  [0xd76aa478, 0xe8c7b756, 0x242070db, 0xc1bdceee,
   0xf57c0faf, 0x4787c62a, 0xa8304613, 0xfd469501,
   0x698098d8, 0x8b44f7af, 0xffff5bb1, 0x895cd7be,
   0x6b901122, 0xfd987193, 0xa679438e, 0x49b40821,
   0xf61e2562, 0xc040b340, 0x265e5a51, 0xe9b6c7aa,
   0xd62f105d, 0x02441453, 0xd8a1e681, 0xe7d3fbc8,
   0x21e1cde6, 0xc33707d6, 0xf4d50d87, 0x455a14ed,
   0xa9e3e905, 0xfcefa3f8, 0x676f02d9, 0x8d2a4c8a,
   0xfffa3942, 0x8771f681, 0x6d9d6122, 0xfde5380c,
   0xa4beea44, 0x4bdecfa9, 0xf6bb4b60, 0xbebfbc70,
   0x289b7ec6, 0xeaa127fa, 0xd4ef3085, 0x04881d05,
   0xd9d4d039, 0xe6db99e5, 0x1fa27cf8, 0xc4ac5665,
   0xf4292244, 0x432aff97, 0xab9423a7, 0xfc93a039,
   0x655b59c3, 0x8f0ccc92, 0xffeff47d, 0x85845dd1,
   0x6fa87e4f, 0xfe2ce6e0, 0xa3014314, 0x4e0811a1,
   0xf7537e82, 0xbd3af235, 0x2ad7d2bb, 0xeb86d391]

/-- Per-round left-rotation amounts. -/
def md5S : List Nat :=
  [7, 12, 17, 22, 7, 12, 17, 22, 7, 12, 17, 22, 7, 12, 17, 22,
   5, 9, 14, 20, 5, 9, 14, 20, 5, 9, 14, 20, 5, 9, 14, 20,
   4, 11, 16, 23, 4, 11, 16, 23, 4, 11, 16, 23, 4, 11, 16, 23,
   6, 10, 15, 21, 6, 10, 15, 21, 6, 10, 15, 21, 6, 10, 15, 21]

def md5F (i b c d : Nat) : Nat :=
  if i < 16 then Nat.lor (Nat.land b c) (Nat.land (not32 b) d)
  else if i < 32 then Nat.lor (Nat.land d b) (Nat.land (not32 d) c)
  else if i < 48 then Nat.xor b (Nat.xor c d)
  else Nat.xor c (Nat.lor b (not32 d))

def md5G (i : Nat) : Nat :=
  if i < 16 then i
  else if i < 32 then (5 * i + 1) % 16
  else if i < 48 then (3 * i + 5) % 16
  else (7 * i) % 16

def md5Round (M : List Nat) (st : Nat × Nat × Nat × Nat) (i : Nat) :
    Nat × Nat × Nat × Nat :=
  let a := st.1
  let b := st.2.1
  let c := st.2.2.1
  let d := st.2.2.2
  let f := add32 (add32 (add32 (md5F i b c d) a) (md5K.getD i 0)) (M.getD (md5G i) 0)
  (d, add32 b (rotl32 f (md5S.getD i 0)), b, c)

/-- Split a little-endian byte list into 32-bit words. -/
def toWordsLE : List Nat → List Nat
  | b0 :: b1 :: b2 :: b3 :: rest =>
      (b0 + 256 * b1 + 65536 * b2 + 16777216 * b3) :: toWordsLE rest
  | _ => []

def md5Chunk (st : Nat × Nat × Nat × Nat) (chunk : List Nat) : Nat × Nat × Nat × Nat :=
  let M := toWordsLE chunk
  let r := (List.range 64).foldl (md5Round M) st
  (add32 st.1 r.1, add32 st.2.1 r.2.1, add32 st.2.2.1 r.2.2.1, add32 st.2.2.2 r.2.2.2)

def chunks64F : Nat → List Nat → List (List Nat)
  | 0, _ => []
  | _, [] => []
  | fuel + 1, b :: rest => (b :: rest).take 64 :: chunks64F fuel (rest.drop 63)

/-- Split into 64-byte chunks (the fuel, bounded by the length, only powers
the recursion). -/
def chunks64 (l : List Nat) : List (List Nat) := chunks64F l.length l

/-- `count` little-endian bytes of `n`. -/
def leBytes : Nat → Nat → List Nat
  | 0, _ => []
  | k + 1, n => n % 256 :: leBytes k (n / 256)

/-- MD5 padding: 0x80, zeros to 56 mod 64, then the bit length as 8 LE bytes. -/
def md5Pad (msg : List Nat) : List Nat :=
  let len := msg.length
  let z := (119 - len % 64) % 64
  msg ++ [128] ++ List.replicate z 0 ++ leBytes 8 (len * 8 % 2 ^ 64)

def byteHexStr (b : Nat) : List Char := [hexDigit (b % 256 / 16), hexDigit (b % 16)]

/-- `hashlib.md5(bytes).hexdigest()`. -/
def md5Hex (msg : List Nat) : String :=
  let st := (chunks64 (md5Pad msg)).foldl md5Chunk
    (0x67452301, 0xefcdab89, 0x98badcfe, 0x10325476)
  String.mk (((leBytes 4 st.1 ++ leBytes 4 st.2.1 ++ leBytes 4 st.2.2.1
    ++ leBytes 4 st.2.2.2).map byteHexStr).flatten)

/-- hash_excel_content (src/core/excel_parser.py lines 260-275): MD5 hexdigest
of the key-sorted JSON dump of the cell dict; `None` input yields `None`. -/
def hash_excel_content : Option Snapshot → Option String
  | none => none
  | some cells => some (md5Hex (utf8 (jsonSnapshot cells)))

/-! ## Python truthiness and dict equality helpers -/

/-- Python falsiness of an optional string: `None` and `""` are falsy
(`not formula` in src/core/comparison.py). -/
def strFalsy : Option String → Bool
  | none => true
  | some s => s = ""

def cellVal : Option CellRec → Option Scalar
  | none => none
  | some c => c.value

def cellFormula : Option CellRec → Option String
  | none => none
  | some c => c.formula

/-- Pointwise equality of two key-sorted association lists. -/
def pairListEqBy {α : Type} (vEq : α → α → Bool) :
    List (String × α) → List (String × α) → Bool
  | [], [] => true
  | (k, v) :: t, (k2, v2) :: t2 => k = k2 && vEq v v2 && pairListEqBy vEq t t2
  | _, _ => false

/-- Python `==` on a cell dict `{"formula": ..., "value": ...}`. -/
def cellPyEqb (a b : CellRec) : Bool :=
  a.formula == b.formula && optPyEq a.value b.value

/-- Python `==` on a worksheet dict (order-insensitive; keys assumed unique,
as they are in any Python dict). -/
def wsPyEqb (a b : WsMap) : Bool := pairListEqBy cellPyEqb (sortKeys a) (sortKeys b)

/-- Python `==` on a workbook snapshot dict
(`baseline_cells == current_data` in src/core/comparison.py line 216). -/
def snapshotPyEqb (a b : Snapshot) : Bool := pairListEqBy wsPyEqb (sortKeys a) (sortKeys b)

def keysOf {α : Type} (l : List (String × α)) : List String := l.map Prod.fst

/-- `set(old.keys()) | set(new.keys())`: iteration order of a Python set is
unspecified; only membership matters to the code that consumes it. -/
def unionKeys {α : Type} (a b : List (String × α)) : List String :=
  (keysOf a ++ keysOf b).dedup

/-- The per-address change test of src/core/comparison.py line 245:
`old_val != new_val or old_formula != new_formula`. -/
def cellDiffers (oc nc : Option CellRec) : Bool :=
  !(optPyEq (cellVal oc) (cellVal nc)) || cellFormula oc != cellFormula nc

/-- The double loop of compare_excel_changes (src/core/comparison.py lines
224-247) deciding whether any cell changed. -/
def hasChanges (oldSnap newSnap : Snapshot) : Bool :=
  (unionKeys oldSnap newSnap).any (fun wsName =>
    let ows := (lookupKey oldSnap wsName).getD []
    let nws := (lookupKey newSnap wsName).getD []
    (unionKeys ows nws).any (fun addr =>
      cellDiffers (lookupKey ows addr) (lookupKey nws addr)))

/-! ## The external-reference pattern check

has_external_reference (src/core/comparison.py lines 400-420) runs
`re.search` with `re.IGNORECASE` over four patterns.  The matcher below
implements exactly those regular expressions: a literal (case-insensitive)
character, an optional character (`x?`), and `.*?` (any run of
non-newline characters; laziness does not affect whether a match exists). -/

inductive Tok where
  | lit (c : Char)
  | opt (c : Char)
  | anyLazy
deriving DecidableEq, Repr

def ciEq (a b : Char) : Bool := a.toLower = b.toLower

/-- All suffixes of `xs` reachable from the head by consuming non-newline
characters (the candidate continuation points of `.*?`). -/
def suffixesNoNl : List Char → List (List Char)
  | [] => [[]]
  | x :: xs => (x :: xs) :: (if x = '\n' then [] else suffixesNoNl xs)

def matchToks : List Tok → List Char → Bool
  | [], _ => true
  | .lit c :: ts, xs =>
      match xs with
      | [] => false
      | x :: xs2 => ciEq x c && matchToks ts xs2
  | .opt c :: ts, xs =>
      matchToks ts xs ||
        (match xs with
         | [] => false
         | x :: xs2 => ciEq x c && matchToks ts xs2)
  | .anyLazy :: ts, xs => (suffixesNoNl xs).any (fun s => matchToks ts s)

/-- `re.search`: try a match starting at every position. -/
def searchToks (pat : List Tok) : List Char → Bool
  | [] => matchToks pat []
  | x :: xs => matchToks pat (x :: xs) || searchToks pat xs

/-- Apostrophe (ASCII 39). -/
def squo : Char := Char.ofNat 39

def patQuoteBracket : List Tok := [.lit squo, .lit '[', .anyLazy, .lit ']']

def patBracket : List Tok := [.lit '[', .anyLazy, .lit ']']

def patXlsx : List Tok :=
  [.lit squo, .anyLazy, .lit '.', .lit 'x', .lit 'l', .lit 's', .opt 'x', .lit squo, .lit '!']

def patXls : List Tok :=
  [.lit squo, .anyLazy, .lit '.', .lit 'x', .lit 'l', .opt 's', .lit squo, .lit '!']

/-- has_external_reference (src/core/comparison.py lines 400-420).
`none` models Python `None`; `if not formula` also rejects the empty
string. -/
def has_external_reference (f : Option String) : Bool :=
  match f with
  | none => false
  | some s =>
    if s = "" then false
    else
      searchToks patQuoteBracket s.data || searchToks patBracket s.data ||
        searchToks patXlsx s.data || searchToks patXls s.data

/-! ## Change classification -/

/-- classify_change_type (src/core/comparison.py lines 365-398).
`oc`/`nc` are `ws.get(addr, {})`: `none` models the empty dict (falsy) of
an absent address; a present cell dict always holds both keys and is
truthy, even when both are None. -/
def classify_change_type (oc nc : Option CellRec) : String :=
  let ov := cellVal oc
  let nv := cellVal nc
  let oldF := cellFormula oc
  let newF := cellFormula nc
  if oc.isNone && nc.isSome then "CELL_ADDED"
  else if oc.isSome && nc.isNone then "CELL_DELETED"
  else if oldF != newF then "FORMULA_CHANGE"
  else if strFalsy oldF && strFalsy newF && !optPyEq ov nv then "DIRECT_VALUE_CHANGE"
  else if !strFalsy oldF && !strFalsy newF && oldF == newF && !optPyEq ov nv then
    (if has_external_reference oldF then "EXTERNAL_REF_UPDATE" else "INDIRECT_CHANGE")
  else "NO_CHANGE"

/-! ## The Change Detector cycle -/

/-- The Baseline record written by compare_excel_changes
(src/core/comparison.py lines 299-304). -/
structure Baseline where
  last_author : Option String
  content_hash : String
  cells : Snapshot
  timestamp : String
deriving DecidableEq, Repr

/-- The environment of one compare_excel_changes invocation: the results of
its external reads.  `baseline` is the load_baseline result, `current` the
dump_excel_cells_with_timeout result, `author` the get_excel_last_author
result, `nowEpoch` is `int(time.time())` and `nowIso` is
`datetime.now().isoformat()`. -/
structure CompareEnv where
  baseline : Option Baseline
  current : Option Snapshot
  author : Option String
  silent : Bool
  nowEpoch : Nat
  nowIso : String
deriving DecidableEq, Repr

/-- compare_excel_changes (src/core/comparison.py lines 187-330), reduced to
its data flow: the returned `has_changes` flag and the Baseline record handed
to save_baseline (none when no save is attempted).  Python falsiness makes
both a missing (`None`) and an empty (`{}`) extraction result abort the
cycle. -/
def compare_excel_changes (env : CompareEnv) : Bool × Option Baseline :=
  match env.baseline with
  | none => (false, none)
  | some b =>
    match env.current with
    | none => (false, none)
    | some c =>
      if c.isEmpty then (false, none)
      else if snapshotPyEqb b.cells c then (false, none)
      else
        let hc := hasChanges b.cells c
        if hc && !env.silent then
          (hc, some { last_author := env.author,
                      content_hash := "updated_" ++ toString env.nowEpoch,
                      cells := c,
                      timestamp := env.nowIso })
        else (hc, none)

/-! ## Adaptive polling scheduler (src/core/watcher.py, ActivePollingHandler)

The task table `polling_tasks` is a Python dict file_path -> task dict;
timers are identified by the order of their creation, and `cancelled`
records every timer id on which `.cancel()` was called. -/

def POLLING_SIZE_THRESHOLD_MB : Nat := 10

def DENSE_POLLING_INTERVAL_SEC : Int := 5

def DENSE_POLLING_DURATION_SEC : Int := 15

def SPARSE_POLLING_INTERVAL_SEC : Int := 15

inductive PTask where
  | dense (timerId : Nat) (remaining : Int)
  | sparse (timerId : Nat)
deriving DecidableEq, Repr

def PTask.timerId : PTask → Nat
  | .dense t _ => t
  | .sparse t => t

structure SchedState where
  table : List (String × PTask)
  cancelled : List Nat
  nextTimer : Nat
  stopped : Bool
deriving DecidableEq, Repr

/-- Python dict assignment `d[k] = v`: replace in place, else append. -/
def setKey {α : Type} (k : String) (v : α) : List (String × α) → List (String × α)
  | [] => [(k, v)]
  | (k2, v2) :: t => if k2 = k then (k, v) :: t else (k2, v2) :: setKey k v t

/-- Python `d.pop(k, None)`. -/
def eraseKey {α : Type} (k : String) : List (String × α) → List (String × α)
  | [] => []
  | (k2, v2) :: t => if k2 = k then t else (k2, v2) :: eraseKey k t

def countKey {α : Type} (k : String) (l : List (String × α)) : Nat :=
  (l.filter (fun q => q.1 == k)).length

/-- `file_size_mb < settings.POLLING_SIZE_THRESHOLD_MB`; division of the byte
size by 2^20 is exact in binary floating point, so the comparison is the
integer one. -/
def sizeBelowThreshold (sizeBytes : Nat) : Bool :=
  sizeBytes < POLLING_SIZE_THRESHOLD_MB * 1024 * 1024

/-- start_polling / _start_dense_polling / _start_sparse_polling
(src/core/watcher.py lines 18-49 and 86-100): cancel the old timer if the
path already has a task, then install the fresh task. -/
def start_polling (p : String) (sizeBytes : Nat) (s : SchedState) : SchedState :=
  let cancelled :=
    match lookupKey s.table p with
    | some t => t.timerId :: s.cancelled
    | none => s.cancelled
  let task :=
    if sizeBelowThreshold sizeBytes then PTask.dense s.nextTimer DENSE_POLLING_DURATION_SEC
    else PTask.sparse s.nextTimer
  { table := setKey p task s.table, cancelled := cancelled,
    nextTimer := s.nextTimer + 1, stopped := s.stopped }

/-- _poll_dense (src/core/watcher.py lines 51-84).  `changed` is the
compare_excel_changes result of this tick.  A sparse task occupying the slot
would raise KeyError in the source; modelled as a no-op (unreachable in the
scenarios proved below). -/
def poll_dense (p : String) (changed : Bool) (s : SchedState) : SchedState :=
  if s.stopped then s
  else
    match lookupKey s.table p with
    | none => s
    | some (.sparse _) => s
    | some (.dense _ r) =>
      let r2 := if changed then DENSE_POLLING_DURATION_SEC else r - DENSE_POLLING_INTERVAL_SEC
      if r2 > 0 then
        { table := setKey p (.dense s.nextTimer r2) s.table, cancelled := s.cancelled,
          nextTimer := s.nextTimer + 1, stopped := s.stopped }
      else
        { table := eraseKey p s.table, cancelled := s.cancelled,
          nextTimer := s.nextTimer, stopped := s.stopped }

/-- _poll_sparse (src/core/watcher.py lines 102-128): reschedule on activity,
retire on a quiet tick. -/
def poll_sparse (p : String) (changed : Bool) (s : SchedState) : SchedState :=
  if s.stopped then s
  else
    match lookupKey s.table p with
    | none => s
    | some t =>
      if changed then
        { table := setKey p
            (match t with
             | .dense _ r => .dense s.nextTimer r
             | .sparse _ => .sparse s.nextTimer) s.table,
          cancelled := s.cancelled, nextTimer := s.nextTimer + 1, stopped := s.stopped }
      else
        { table := eraseKey p s.table, cancelled := s.cancelled,
          nextTimer := s.nextTimer, stopped := s.stopped }

/-- stop (src/core/watcher.py lines 130-138). -/
def stop_all (s : SchedState) : SchedState :=
  { table := [], cancelled := s.cancelled ++ s.table.map (fun q => q.2.timerId),
    nextTimer := s.nextTimer, stopped := true }

inductive SchedOp where
  | start (p : String) (sizeBytes : Nat)
  | tickDense (p : String) (changed : Bool)
  | tickSparse (p : String) (changed : Bool)
  | stopAll
deriving DecidableEq, Repr

def SchedState.step (s : SchedState) : SchedOp → SchedState
  | .start p n => start_polling p n s
  | .tickDense p ch => poll_dense p ch s
  | .tickSparse p ch => poll_sparse p ch s
  | .stopAll => stop_all s

def initSched : SchedState := ⟨[], [], 0, false⟩

def runOps (ops : List SchedOp) : SchedState := ops.foldl SchedState.step initSched

/-- Keys of an association list are pairwise distinct (always true of a
Python dict). -/
def WFTable {α : Type} (l : List (String × α)) : Prop := (l.map Prod.fst).Nodup

instance {α : Type} (l : List (String × α)) : Decidable (WFTable l) := by
  unfold WFTable
  infer_instance

/-! ## Baseline store paths and artifacts (src/core/baseline.py, src/config/settings.py)

The store is modelled as the list of file-system paths that currently exist
under the log folder. -/

def LOG_FOLDER : String := "C:\\Users\\user\\Desktop\\watchdog\\log_folder"

def CACHE_FOLDER : String := "C:\\Users\\user\\Desktop\\watchdog\\cache_folder"

def SUPPORTED_EXTS : List String := [".xlsx", ".xlsm"]

/-- `os.path.join` with the Windows separator used throughout
src/config/settings.py. -/
def ospJoin (a b : String) : String := a ++ "\\" ++ b

/-- baseline_file_path (src/core/baseline.py lines 28-32): the artifact path
*without* any compression extension. -/
def baseline_file_path (base_name : String) : String :=
  ospJoin LOG_FOLDER (base_name ++ ".baseline.json")

/-- The compression codecs of src/core/baseline.py ('gzip', 'lz4', 'zstd'). -/
inductive Fmt where
  | gzip
  | lz4
  | zstd
deriving DecidableEq, Repr

/-- Modelled from the spec: `CompressionFormat.get_extension` lives in
utils/compression.py, which is not part of the sources; the spec says the
codec of a baseline artifact is identified by its file extension, and
load_baseline (src/core/baseline.py line 59) strips exactly '.gz', '.lz4'
and '.zst'. -/
def Fmt.ext : Fmt → String
  | .gzip => ".gz"
  | .lz4 => ".lz4"
  | .zstd => ".zst"

/-- The on-disk path of the artifact a given codec writes for a key. -/
def artifactPath (f : Fmt) (base_name : String) : String :=
  baseline_file_path base_name ++ f.ext

/-- `os.remove(path)`: the path no longer exists afterwards. -/
def removePath (path : String) (store : List String) : List String :=
  store.filter (fun q => q != path)

/-- Whether the store holds a baseline artifact for this key under any codec
(the extensions checked by get_baseline_file_with_extension,
src/core/baseline.py lines 34-47). -/
def hasBaselineArtifact (base_name : String) (store : List String) : Bool :=
  [Fmt.lz4, Fmt.zstd, Fmt.gzip].any (fun f => store.contains (artifactPath f base_name))

/-- The old-format cleanup loop of save_baseline (src/core/baseline.py lines
123-142): for every format other than the configured default, delete its
artifact if present.  It runs BEFORE the save. -/
def cleanupOldFormats (defaultFmt : Fmt) (base : String) (store : List String) : List String :=
  [Fmt.gzip, Fmt.lz4, Fmt.zstd].foldl
    (fun st f => if f ≠ defaultFmt then removePath (base ++ f.ext) st else st) store

/-- save_baseline (src/core/baseline.py lines 90-172) for a bare key name,
abstracted over the file system: `saveOk` is whether save_compressed_file
succeeds (modelled from the spec: it writes the artifact under the default
codec's extension; on an exception save_baseline returns False with no
further file-system effect).  Returns the Python return value and the
resulting store. -/
def save_baseline (defaultFmt : Fmt) (saveOk : Bool) (base_name : String)
    (store : List String) : Bool × List String :=
  let base := baseline_file_path base_name
  let store1 := cleanupOldFormats defaultFmt base store
  if saveOk then
    (true, removePath (base ++ defaultFmt.ext) store1 ++ [base ++ defaultFmt.ext])
  else (false, store1)

/-! ## Rename/move handling (src/core/watcher.py, ExcelFileEventHandler.on_moved) -/

inductive MoveOutcome where
  | ignored
  | renamed (srcArtifact dstArtifact : String)
  | seeded (destPath : String)
deriving DecidableEq, Repr

/-- `str.lower()` (ASCII case folding suffices for the extensions checked). -/
def strToLower (s : String) : String := String.mk (s.data.map Char.toLower)

/-- `str.endswith(suffix)`. -/
def strEndsWith (s suf : String) : Bool := suf.data.reverse.isPrefixOf s.data.reverse

/-- `file_path.lower().endswith(settings.SUPPORTED_EXTS)`. -/
def isSupportedPath (p : String) : Bool :=
  SUPPORTED_EXTS.any (fun e => strEndsWith (strToLower p) e)

def isSep (c : Char) : Bool := c = '/' || c = '\\'

/-- `os.path.basename` (Windows: both separators split). -/
def basename (p : String) : String :=
  String.mk ((p.data.reverse.takeWhile (fun c => !isSep c)).reverse)

/-- on_moved (src/core/watcher.py lines 232-267).  The existence check
`os.path.exists(src_b_path)` is taken on the extensionless
baseline_file_path; only if that very path exists is the artifact renamed,
otherwise the destination is seeded as a brand-new file
(create_baseline_for_files_robust, abstracted to the `seeded` outcome). -/
def on_moved (isDirectory : Bool) (srcPath destPath : String) (store : List String) :
    MoveOutcome × List String :=
  if isDirectory then (.ignored, store)
  else if !isSupportedPath destPath then (.ignored, store)
  else
    let srcB := baseline_file_path (basename srcPath)
    if store.contains srcB then
      let destB := baseline_file_path (basename destPath)
      (.renamed srcB destB, removePath srcB store ++ [destB])
    else (.seeded destPath, store)

/-! ## Local cache mirror (src/utils/cache.py, copy_to_cache) -/

/-- The outcome of every file-system probe copy_to_cache performs, so the
function itself is total: `mtimeFresh = some fresh` is the comparison
`os.path.getmtime(cache_file) >= os.path.getmtime(network_path)`, `none`
meaning the comparison raised OSError (the `pass` branch). -/
structure CacheEnv where
  useLocalCache : Bool
  networkPath : String
  makedirsOk : Bool
  srcExists : Bool
  srcReadable : Bool
  cacheExists : Bool
  mtimeFresh : Option Bool
  getsizeOk : Bool
  copyOk : Bool
deriving DecidableEq, Repr

/-- The local cache path:
`hashlib.md5(network_path.encode('utf-8')).hexdigest()[:16]_basename`. -/
def cacheFilePath (env : CacheEnv) : String :=
  ospJoin CACHE_FOLDER
    (String.mk ((md5Hex (utf8 env.networkPath)).data.take 16) ++ "_"
      ++ basename env.networkPath)

/-- copy_to_cache (src/utils/cache.py lines 14-80).  Result: the returned
path and whether shutil.copy2 was performed.  Every exception is caught and
yields the original network path. -/
def copy_to_cache (env : CacheEnv) : String × Bool :=
  if !env.useLocalCache then (env.networkPath, false)
  else if !env.makedirsOk then (env.networkPath, false)
  else if !env.srcExists then (env.networkPath, false)
  else if !env.srcReadable then (env.networkPath, false)
  else if env.cacheExists && env.mtimeFresh == some true then (cacheFilePath env, false)
  else if !env.getsizeOk then (env.networkPath, false)
  else if env.copyOk then (cacheFilePath env, true)
  else (env.networkPath, false)

/-! ## Cell extraction (src/core/excel_parser.py, dump_excel_cells_with_timeout)

The openpyxl workbook is modelled by what the extraction loop reads of it:
each worksheet's title, its reported `max_row`/`max_column`, and the cells
`iter_rows` yields (row by row).  A cell carries openpyxl's `data_type`
(`'f'` marks formula cells) and its raw `value`. -/

inductive PyVal where
  | noneV
  | str (s : String)
  | int (n : Int)
  | bool (b : Bool)
  | datetime (iso : String)
  | arrayFormula (text : String)
deriving DecidableEq, Repr

structure RawCell where
  coordinate : String
  dataType : Char
  value : PyVal
deriving DecidableEq, Repr

structure Sheet where
  title : String
  maxRow : Nat
  maxCol : Nat
  rows : List (List RawCell)
deriving DecidableEq, Repr

structure Workbook where
  sheets : List Sheet
deriving DecidableEq, Repr

/-- get_cell_formula (src/core/excel_parser.py lines 86-95): the formula
string of a formula-typed cell (plain or array formula). -/
def get_cell_formula (c : RawCell) : Option String :=
  if c.dataType = 'f' then
    match c.value with
    | .arrayFormula t => some t
    | .str s => some s
    | _ => none
  else none

/-- serialize_cell_value (src/core/excel_parser.py lines 97-109). -/
def serialize_cell_value : PyVal → Option Scalar
  | .noneV => none
  | .arrayFormula _ => none
  | .datetime iso => some (.str iso)
  | .str s => some (.str s)
  | .int n => some (.int n)
  | .bool b => some (.bool b)

/-- A cell enters `ws_data` iff `fstr is not None or vstr is not None`
(src/core/excel_parser.py line 208). -/
def keepCell (c : RawCell) : Bool :=
  (get_cell_formula c).isSome || (serialize_cell_value c.value).isSome

def cellEntry (c : RawCell) : String × CellRec :=
  (c.coordinate, ⟨get_cell_formula c, serialize_cell_value c.value⟩)

/-- The per-worksheet loop (src/core/excel_parser.py lines 199-210): the
cell scan runs only under the guard `ws.max_row > 1 or ws.max_column > 1`. -/
def dumpSheet (s : Sheet) : WsMap :=
  if s.maxRow > 1 || s.maxCol > 1 then
    s.rows.flatten.foldl
      (fun acc c => if keepCell c then acc ++ [cellEntry c] else acc) []
  else []

/-- dump_excel_cells_with_timeout (src/core/excel_parser.py lines 170-258),
success path: a worksheet contributes iff its `ws_data` is non-empty. -/
def dump_excel_cells_with_timeout (wb : Workbook) : Snapshot :=
  wb.sheets.foldl
    (fun acc s =>
      if (dumpSheet s).isEmpty then acc else acc ++ [(s.title, dumpSheet s)]) []

/-- openpyxl consistency: `iter_rows` yields exactly `max_row` rows of
`max_column` cells each (openpyxl reports at least 1x1 even for an empty
sheet). -/
def Workbook.consistent (wb : Workbook) : Bool :=
  wb.sheets.all (fun s =>
    s.rows.length == s.maxRow && 1 ≤ s.maxRow && 1 ≤ s.maxCol &&
      s.rows.all (fun r => r.length == s.maxCol))

/-! ## Structural well-formedness of snapshots, and snapshot equivalence -/

/-- A snapshot is well-formed when worksheet names and, within each
worksheet, cell addresses are unique — automatic for Python dicts. -/
def SnapWF (S : Snapshot) : Prop := WFTable S ∧ ∀ p ∈ S, WFTable p.2

instance (S : Snapshot) : Decidable (SnapWF S) := by
  unfold SnapWF WFTable; infer_instance

/-- Two snapshots hold identical worksheet-to-cell contents, differing only
in the insertion order of worksheets and of cell addresses. -/
def SnapEquiv (S T : Snapshot) : Prop :=
  ∃ T', T.Perm T' ∧ List.Forall₂ (fun a b => a.1 = b.1 ∧ a.2.Perm b.2) S T'

/-! ## Concrete instances used by the counterexamples and witnesses below -/

def snapOld1 : Snapshot := [("S", [("A1", ⟨none, some (.int 1)⟩)])]

def snapNew1 : Snapshot := [("S", [("A1", ⟨none, some (.int 2)⟩)])]

def baseRec1 : Baseline :=
  { last_author := some "bob", content_hash := "0123456789abcdef0123456789abcdef",
    cells := snapOld1, timestamp := "2023-01-01T00:00:00" }

/-- A cycle in which cell S!A1 changed value: baseline present, extraction
succeeded, one direct value change. -/
def envChange : CompareEnv :=
  { baseline := some baseRec1, current := some snapNew1, author := some "alice",
    silent := false, nowEpoch := 1700000000, nowIso := "2023-11-14T22:13:20" }

/-- The baseline record compare_excel_changes hands to save_baseline for
`envChange`. -/
def savedChange : Baseline :=
  { last_author := some "alice", content_hash := "updated_1700000000",
    cells := snapNew1, timestamp := "2023-11-14T22:13:20" }

/-- A cycle whose extraction failed (dump_excel_cells_with_timeout returned
None) on a file that has a baseline. -/
def envFail : CompareEnv :=
  { baseline := some baseRec1, current := none, author := some "alice",
    silent := false, nowEpoch := 1700000000, nowIso := "2023-11-14T22:13:20" }

/-- A cycle in which the file genuinely did not change. -/
def envQuiet : CompareEnv :=
  { baseline := some baseRec1, current := some snapOld1, author := some "alice",
    silent := false, nowEpoch := 1700000000, nowIso := "2023-11-14T22:13:20" }

/-- A scheduler state with one live sparse task. -/
def schedSparse1 : SchedState :=
  { table := [("C:\\Test\\big.xlsx", .sparse 0)], cancelled := [], nextTimer := 1,
    stopped := false }

/-- A scheduler state with one live dense task (timer 3, full budget). -/
def schedDense1 : SchedState :=
  { table := [("C:\\Test\\small.xlsx", .dense 3 15)], cancelled := [], nextTimer := 4,
    stopped := false }

/-- A workbook whose single worksheet holds data only in cell A1: openpyxl
reports max_row = max_column = 1 for it. -/
def wbA1only : Workbook :=
  ⟨[{ title := "Sheet1", maxRow := 1, maxCol := 1,
      rows := [[{ coordinate := "A1", dataType := 'n', value := .int 7 }]] }]⟩

/-- A store holding the lz4-compressed baseline artifact of a.xlsx. -/
def storeLz4 : List String := [artifactPath .lz4 "a.xlsx"]

/-- A store holding the gzip-compressed baseline artifact of a.xlsx. -/
def storeGz : List String := [artifactPath .gzip "a.xlsx"]

def snapC9a : Snapshot :=
  [("Alpha", [("A1", ⟨some "=1+1", some (.int 2)⟩)]),
   ("Beta", [("B1", ⟨none, some (.str "x")⟩), ("B2", ⟨none, some (.bool true)⟩)])]

def snapC9b : Snapshot :=
  [("Beta", [("B2", ⟨none, some (.bool true)⟩), ("B1", ⟨none, some (.str "x")⟩)]),
   ("Alpha", [("A1", ⟨some "=1+1", some (.int 2)⟩)])]

/-- `snapC9b` reordered to pair off with `snapC9a` sheet by sheet. -/
def snapC9mid : Snapshot :=
  [("Alpha", [("A1", ⟨some "=1+1", some (.int 2)⟩)]),
   ("Beta", [("B2", ⟨none, some (.bool true)⟩), ("B1", ⟨none, some (.str "x")⟩)])]

def cacheEnvFresh : CacheEnv :=
  { useLocalCache := true, networkPath := "\\\\server\\share\\book.xlsx",
    makedirsOk := true, srcExists := true, srcReadable := true, cacheExists := true,
    mtimeFresh := some true, getsizeOk := true, copyOk := true }

def cacheEnvMissing : CacheEnv :=
  { useLocalCache := true, networkPath := "\\\\server\\share\\book.xlsx",
    makedirsOk := true, srcExists := false, srcReadable := true, cacheExists := false,
    mtimeFresh := none, getsizeOk := true, copyOk := true }

set_option maxRecDepth 10000

/-! # Theorems

General lemmas about the order, the sorter and association lists, followed by
one theorem per claim (with witnesses and counterexamples). -/


theorem char_eq_of_toNat_eq {a b : Char} (h : a.toNat = b.toNat) : a = b :=
  Char.eq_of_val_eq (UInt32.ext h)

theorem listCharLt_trans :
    ∀ {x y z : List Char}, listCharLt x y = true → listCharLt y z = true →
      listCharLt x z = true
  | [], [], _, h1, _ => by simp [listCharLt] at h1
  | [], _ :: _, [], _, h2 => by simp [listCharLt] at h2
  | [], _ :: _, _ :: _, _, _ => by simp [listCharLt]
  | _ :: _, [], _, h1, _ => by simp [listCharLt] at h1
  | _ :: _, _ :: _, [], _, h2 => by simp [listCharLt] at h2
  | a :: as, b :: bs, c :: cs, h1, h2 => by
    simp only [listCharLt, charLt] at h1 h2 ⊢
    rcases Nat.lt_trichotomy a.toNat b.toNat with hab | hab | hab <;>
      rcases Nat.lt_trichotomy b.toNat c.toNat with hbc | hbc | hbc
    · simp [lt_trans hab hbc]
    · simp [hbc ▸ hab]
    · simp [Nat.lt_asymm hbc, hbc] at h2
    · simp [hab ▸ hbc]
    · simp [hab, hbc] at h1 h2 ⊢
      exact listCharLt_trans h1 h2
    · simp [Nat.lt_asymm hbc, hbc] at h2
    · simp [Nat.lt_asymm hab, hab] at h1
    · simp [Nat.lt_asymm hab, hab] at h1
    · simp [Nat.lt_asymm hab, hab] at h1

theorem listCharLt_irrefl : ∀ (x : List Char), listCharLt x x = false
  | [] => by simp [listCharLt]
  | a :: as => by
    simp [listCharLt, charLt, listCharLt_irrefl as]

theorem listCharLt_asymm {x y : List Char} (h : listCharLt x y = true) :
    listCharLt y x = false := by
  cases hx : listCharLt y x
  · rfl
  · have := listCharLt_trans h hx
    rw [listCharLt_irrefl] at this
    exact absurd this (by simp)

theorem listCharLt_antisymm :
    ∀ {x y : List Char}, listCharLt x y = false → listCharLt y x = false → x = y
  | [], [], _, _ => rfl
  | [], _ :: _, h1, _ => by simp [listCharLt] at h1
  | _ :: _, [], _, h2 => by simp [listCharLt] at h2
  | a :: as, b :: bs, h1, h2 => by
    simp only [listCharLt, charLt] at h1 h2
    rcases Nat.lt_trichotomy a.toNat b.toNat with hab | hab | hab
    · simp [hab] at h1
    · have hab2 : a = b := char_eq_of_toNat_eq hab
      simp [hab, hab2] at h1 h2
      rw [hab2, listCharLt_antisymm h1 h2]
    · simp [hab] at h2

theorem strLt_trans {x y z : String} (h1 : strLt x y = true) (h2 : strLt y z = true) :
    strLt x z = true := listCharLt_trans h1 h2

theorem strLt_asymm {x y : String} (h : strLt x y = true) : strLt y x = false :=
  listCharLt_asymm h

theorem strLt_antisymm {x y : String} (h1 : strLt x y = false)
    (h2 : strLt y x = false) : x = y := by
  have := listCharLt_antisymm h1 h2
  cases x; cases y; exact congrArg String.mk this

/-- Sortedness by non-descending keys. -/
def SortedKeysLe {α : Type} (l : List (String × α)) : Prop :=
  l.Pairwise (fun a b => strLt b.1 a.1 = false)

/-- Strictly ascending keys. -/
def SortedKeysLt {α : Type} (l : List (String × α)) : Prop :=
  l.Pairwise (fun a b => strLt a.1 b.1 = true)

theorem insertKey_perm {α : Type} (p : String × α) (l : List (String × α)) :
    (insertKey p l).Perm (p :: l) := by
  induction l with
  | nil => exact List.Perm.refl _
  | cons q qs ih =>
    cases h : strLt p.1 q.1 with
    | true => simp [insertKey, h]
    | false =>
      simp only [insertKey, h, Bool.false_eq_true, if_false]
      exact (ih.cons q).trans (List.Perm.swap p q qs)

theorem insertKey_sorted {α : Type} (p : String × α) {l : List (String × α)}
    (h : SortedKeysLe l) : SortedKeysLe (insertKey p l) := by
  induction l with
  | nil => simp [insertKey, SortedKeysLe]
  | cons q qs ih =>
    rcases List.pairwise_cons.mp h with ⟨hq, hqs⟩
    cases hpq : strLt p.1 q.1 with
    | true =>
      simp only [insertKey, hpq, if_true]
      refine List.pairwise_cons.mpr ⟨?_, h⟩
      intro x hx
      rcases List.mem_cons.mp hx with rfl | hx2
      · exact strLt_asymm hpq
      · cases hxp : strLt x.1 p.1
        · rfl
        · have := strLt_trans hxp hpq
          rw [hq x hx2] at this
          exact absurd this (by simp)
    | false =>
      simp only [insertKey, hpq, Bool.false_eq_true, if_false]
      refine List.pairwise_cons.mpr ⟨?_, ih hqs⟩
      intro x hx
      have hx2 : x = p ∨ x ∈ qs := by
        have := (insertKey_perm p qs).mem_iff.mp hx
        simpa using this
      rcases hx2 with rfl | hx2
      · exact hpq
      · exact hq x hx2

theorem sortKeys_perm {α : Type} (l : List (String × α)) : (sortKeys l).Perm l := by
  induction l with
  | nil => exact List.Perm.refl _
  | cons p ps ih => exact (insertKey_perm p (sortKeys ps)).trans (ih.cons p)

theorem sortKeys_sorted {α : Type} (l : List (String × α)) : SortedKeysLe (sortKeys l) := by
  induction l with
  | nil => simp [sortKeys, SortedKeysLe]
  | cons p ps ih => exact insertKey_sorted p ih

theorem sortKeys_sortedLt {α : Type} {l : List (String × α)}
    (hn : (l.map Prod.fst).Nodup) : SortedKeysLt (sortKeys l) := by
  have hle := sortKeys_sorted l
  have hperm := sortKeys_perm l
  have hn2 : ((sortKeys l).map Prod.fst).Nodup := ((hperm.map Prod.fst).nodup_iff).mpr hn
  have hne : (sortKeys l).Pairwise (fun a b => a.1 ≠ b.1) := List.pairwise_map.mp hn2
  refine (hle.and hne).imp ?_
  intro a b hab
  cases h : strLt a.1 b.1
  · exact absurd (strLt_antisymm h hab.1) hab.2
  · rfl

theorem sortKeys_of_sortedLt {α : Type} :
    ∀ {l : List (String × α)}, SortedKeysLt l → sortKeys l = l
  | [], _ => rfl
  | p :: ps, h => by
    rcases List.pairwise_cons.mp h with ⟨hp, hps⟩
    simp only [sortKeys, sortKeys_of_sortedLt hps]
    cases ps with
    | nil => rfl
    | cons q qs => simp [insertKey, hp q (by simp)]

theorem sortKeys_eq_of_perm {α : Type} {l l2 : List (String × α)} (hp : l.Perm l2)
    (hn : (l.map Prod.fst).Nodup) : sortKeys l = sortKeys l2 := by
  have hn2 : (l2.map Prod.fst).Nodup := ((hp.map Prod.fst).nodup_iff).mp hn
  have h1 := sortKeys_sortedLt hn
  have h2 := sortKeys_sortedLt hn2
  have hperm : (sortKeys l).Perm (sortKeys l2) :=
    (sortKeys_perm l).trans (hp.trans (sortKeys_perm l2).symm)
  haveI : IsAntisymm (String × α) (fun a b => strLt a.1 b.1 = true) :=
    ⟨fun a b ha hb => by rw [strLt_asymm ha] at hb; exact absurd hb (by simp)⟩
  exact List.eq_of_perm_of_sorted hperm h1 h2

theorem sortKeys_idem {α : Type} {l : List (String × α)}
    (hn : (l.map Prod.fst).Nodup) : sortKeys (sortKeys l) = sortKeys l :=
  sortKeys_of_sortedLt (sortKeys_sortedLt hn)

theorem insertKey_map_val {α β : Type} (f : α → β) (p : String × α) :
    ∀ (l : List (String × α)),
      insertKey (p.1, f p.2) (l.map (fun q => (q.1, f q.2)))
        = (insertKey p l).map (fun q => (q.1, f q.2))
  | [] => rfl
  | q :: qs => by
    simp only [List.map, insertKey]
    cases h : strLt p.1 q.1 <;> simp [h, insertKey_map_val f p qs]

theorem sortKeys_map_val {α β : Type} (f : α → β) :
    ∀ (l : List (String × α)),
      sortKeys (l.map (fun q => (q.1, f q.2))) = (sortKeys l).map (fun q => (q.1, f q.2))
  | [] => rfl
  | p :: ps => by
    simp only [List.map, sortKeys, sortKeys_map_val f ps]
    exact insertKey_map_val f p (sortKeys ps)

theorem jsonWs_sortKeys {ws : WsMap} (hn : (ws.map Prod.fst).Nodup) :
    jsonWs (sortKeys ws) = jsonWs ws := by
  unfold jsonWs
  rw [sortKeys_idem hn]

theorem forall2_inner_eq :
    ∀ {S T2 : List (String × WsMap)},
      List.Forall₂ (fun a b => a.1 = b.1 ∧ a.2.Perm b.2) S T2 →
      (∀ p ∈ S, WFTable p.2) →
      S.map (fun p => (p.1, sortKeys p.2)) = T2.map (fun p => (p.1, sortKeys p.2))
  | _, _, .nil, _ => rfl
  | a :: S2, b :: T3, .cons h hs, hwf => by
    simp only [List.map_cons, List.cons.injEq]
    refine ⟨?_, forall2_inner_eq hs (fun p hp => hwf p (List.mem_cons_of_mem _ hp))⟩
    have hn : (a.2.map Prod.fst).Nodup := hwf a (by simp)
    rw [h.1, sortKeys_eq_of_perm h.2 hn]

theorem canonical_eq_of_equiv {S T : Snapshot} (he : SnapEquiv S T)
    (hS : SnapWF S) (hT : SnapWF T) :
    sortKeys (S.map (fun p => (p.1, sortKeys p.2)))
      = sortKeys (T.map (fun p => (p.1, sortKeys p.2))) := by
  obtain ⟨T2, hpT, hF⟩ := he
  have h1 : S.map (fun p => (p.1, sortKeys p.2)) = T2.map (fun p => (p.1, sortKeys p.2)) :=
    forall2_inner_eq hF hS.2
  have h2 : (T.map (fun p => (p.1, sortKeys p.2))).Perm
      (T2.map (fun p => (p.1, sortKeys p.2))) := hpT.map _
  have hn : ((T.map (fun p => (p.1, sortKeys p.2))).map Prod.fst).Nodup := by
    rw [List.map_map]
    exact hT.1
  rw [h1]
  exact (sortKeys_eq_of_perm h2 hn).symm

theorem jsonSnapshot_eq_canonmap {S : Snapshot} (hwf : SnapWF S) :
    (sortKeys S).map (fun p => jsonString p.1 ++ ": " ++ jsonWs p.2)
      = (sortKeys (S.map (fun p => (p.1, sortKeys p.2)))).map
          (fun p => jsonString p.1 ++ ": " ++ jsonWs p.2) := by
  rw [sortKeys_map_val, List.map_map]
  refine (List.map_congr_left ?_).symm
  intro p hp
  have hmem : p ∈ S := (sortKeys_perm S).subset hp
  have hn : (p.2.map Prod.fst).Nodup := hwf.2 p hmem
  simp only [Function.comp]
  rw [jsonWs_sortKeys hn]

theorem jsonSnapshot_eq_of_equiv {S T : Snapshot} (he : SnapEquiv S T)
    (hS : SnapWF S) (hT : SnapWF T) : jsonSnapshot S = jsonSnapshot T := by
  unfold jsonSnapshot
  rw [jsonSnapshot_eq_canonmap hS, jsonSnapshot_eq_canonmap hT,
    canonical_eq_of_equiv he hS hT]

/-- C9: the content fingerprint is a deterministic function of the cell
contents of a WorkbookSnapshot: `fingerprint(S) == fingerprint(S)`, and any
two snapshots holding identical worksheet-to-cell contents hash identically
regardless of the order in which worksheets or cell addresses were inserted
into their dicts. -/
theorem c9_fingerprint_deterministic_orderfree :
    (∀ S : Snapshot, hash_excel_content (some S) = hash_excel_content (some S)) ∧
    (∀ S T : Snapshot, SnapEquiv S T → SnapWF S → SnapWF T →
      hash_excel_content (some S) = hash_excel_content (some T)) :=
  ⟨fun _ => rfl, fun _ _ he hS hT => by
    simp only [hash_excel_content]
    rw [jsonSnapshot_eq_of_equiv he hS hT]⟩

/-- C9 witness: two concrete snapshots with the same contents, worksheets and
cells inserted in different orders, have equal fingerprints. -/
theorem c9_witness : hash_excel_content (some snapC9a) = hash_excel_content (some snapC9b) :=
  c9_fingerprint_deterministic_orderfree.2 snapC9a snapC9b
    ⟨snapC9mid, by decide,
      List.Forall₂.cons ⟨rfl, by decide⟩ (List.Forall₂.cons ⟨rfl, by decide⟩ List.Forall₂.nil)⟩
    (by decide) (by decide)

theorem lookupKey_eq_none_of_not_mem {α : Type} {k : String} :
    ∀ {l : List (String × α)}, k ∉ l.map Prod.fst → lookupKey l k = none
  | [], _ => rfl
  | (k2, v) :: t, h => by
    have hne : k2 ≠ k := by
      intro he
      exact h (by simp [he])
    simp only [lookupKey, hne, if_false]
    exact lookupKey_eq_none_of_not_mem (fun hm => h (by simp [hm]))

theorem lookupKey_setKey_self {α : Type} (k : String) (v : α) :
    ∀ (l : List (String × α)), lookupKey (setKey k v l) k = some v
  | [] => by simp [setKey, lookupKey]
  | (k2, v2) :: t => by
    cases h : decide (k2 = k) with
    | true =>
      have h2 : k2 = k := of_decide_eq_true h
      simp [setKey, h2, lookupKey]
    | false =>
      have h2 : ¬ k2 = k := of_decide_eq_false h
      simp only [setKey, h2, if_false, lookupKey]
      exact lookupKey_setKey_self k v t

theorem mem_keys_setKey {α : Type} {x k : String} {v : α} :
    ∀ {l : List (String × α)}, x ∈ (setKey k v l).map Prod.fst →
      x = k ∨ x ∈ l.map Prod.fst
  | [], h => by simpa [setKey] using h
  | (k2, v2) :: t, h => by
    by_cases h2 : k2 = k
    · simp only [setKey, h2, if_true, List.map_cons, List.mem_cons] at h
      rcases h with h | h
      · exact Or.inl h
      · exact Or.inr (by simp [h])
    · simp only [setKey, h2, if_false, List.map_cons, List.mem_cons] at h
      rcases h with h | h
      · exact Or.inr (by simp [h])
      · rcases mem_keys_setKey h with h3 | h3
        · exact Or.inl h3
        · exact Or.inr (by simp [h3])

theorem WFTable_setKey {α : Type} (k : String) (v : α) :
    ∀ {l : List (String × α)}, WFTable l → WFTable (setKey k v l)
  | [], _ => by simp [setKey, WFTable]
  | (k2, v2) :: t, h => by
    rcases List.pairwise_cons.mp h with ⟨hk2, ht⟩
    by_cases h2 : k2 = k
    · subst h2
      simpa [setKey, WFTable] using h
    · simp only [setKey, h2, if_false, WFTable, List.map_cons]
      refine List.pairwise_cons.mpr ⟨?_, WFTable_setKey k v ht⟩
      intro y hy
      rcases mem_keys_setKey hy with rfl | h3
      · exact fun he => h2 he
      · exact hk2 y h3

theorem eraseKey_sublist {α : Type} (k : String) :
    ∀ (l : List (String × α)), (eraseKey k l).Sublist l
  | [] => List.Sublist.refl _
  | (k2, v2) :: t => by
    by_cases h : k2 = k
    · simp only [eraseKey, h, if_true]
      exact List.sublist_cons_self _ _
    · simp only [eraseKey, h, if_false]
      exact (eraseKey_sublist k t).cons₂ _

theorem WFTable_eraseKey {α : Type} (k : String) {l : List (String × α)}
    (h : WFTable l) : WFTable (eraseKey k l) :=
  h.sublist ((eraseKey_sublist k l).map Prod.fst)

theorem lookupKey_eraseKey_self {α : Type} (k : String) :
    ∀ {l : List (String × α)}, WFTable l → lookupKey (eraseKey k l) k = none
  | [], _ => rfl
  | (k2, v2) :: t, h => by
    rcases List.pairwise_cons.mp h with ⟨hk2, ht⟩
    by_cases h2 : k2 = k
    · simp only [eraseKey, h2, if_true]
      subst h2
      refine lookupKey_eq_none_of_not_mem ?_
      intro hm
      rcases List.mem_map.mp hm with ⟨q, hq, hqk⟩
      exact hk2 q.1 (by exact List.mem_map.mpr ⟨q, hq, rfl⟩) hqk.symm
    · simp only [eraseKey, h2, if_false, lookupKey, if_false]
      exact lookupKey_eraseKey_self k ht

theorem countKey_eq_zero {α : Type} {k : String} :
    ∀ {l : List (String × α)}, k ∉ l.map Prod.fst → countKey k l = 0
  | [], _ => rfl
  | (k2, v2) :: t, h => by
    have hne : ¬ (k2 == k) = true := by
      simp only [beq_iff_eq]
      intro he
      exact h (by simp [he])
    simp only [countKey, List.filter_cons]
    rw [if_neg hne]
    exact countKey_eq_zero (fun hm => h (by simp [hm]))

theorem countKey_le_one {α : Type} {k : String} :
    ∀ {l : List (String × α)}, WFTable l → countKey k l ≤ 1
  | [], _ => by simp [countKey]
  | (k2, v2) :: t, h => by
    rcases List.pairwise_cons.mp h with ⟨hk2, ht⟩
    by_cases h2 : k2 = k
    · subst h2
      have hz : countKey k2 t = 0 := countKey_eq_zero (fun hm => by
        rcases List.mem_map.mp hm with ⟨q, hq, hqk⟩
        exact hk2 q.1 (List.mem_map.mpr ⟨q, hq, rfl⟩) hqk.symm)
      simp only [countKey, List.filter_cons, beq_self_eq_true, if_true]
      simp only [countKey] at hz
      simp [hz]
    · have hbe : (k2 == k) = false := by simp [h2]
      simp only [countKey, List.filter_cons, hbe, Bool.false_eq_true, if_false]
      exact countKey_le_one ht

theorem countKey_setKey {α : Type} (k : String) (v : α) {l : List (String × α)}
    (h : WFTable l) : countKey k (setKey k v l) = 1 := by
  have h1 : countKey k (setKey k v l) ≤ 1 := countKey_le_one (WFTable_setKey k v h)
  have h2 : lookupKey (setKey k v l) k = some v := lookupKey_setKey_self k v l
  have h3 : 0 < countKey k (setKey k v l) := by
    by_contra hc
    have hz : countKey k (setKey k v l) = 0 := by omega
    have : k ∉ (setKey k v l).map Prod.fst := by
      intro hm
      rcases List.mem_map.mp hm with ⟨q, hq, hqk⟩
      have : countKey k (setKey k v l) ≠ 0 := by
        simp only [countKey, ne_eq]
        intro hlen
        rcases List.filter_eq_nil_iff.mp (List.length_eq_zero.mp hlen) q hq with h4
        simp [hqk] at h4
      exact this hz
    rw [lookupKey_eq_none_of_not_mem this] at h2
    exact Option.noConfusion h2
  omega

theorem start_polling_table (p : String) (n : Nat) (s : SchedState) :
    (start_polling p n s).table =
      setKey p
        (if sizeBelowThreshold n then PTask.dense s.nextTimer DENSE_POLLING_DURATION_SEC
         else PTask.sparse s.nextTimer) s.table := rfl

theorem WFTable_start_polling (p : String) (n : Nat) (s : SchedState)
    (h : WFTable s.table) : WFTable (start_polling p n s).table := by
  rw [start_polling_table]
  exact WFTable_setKey _ _ h

theorem WFTable_poll_dense (p : String) (ch : Bool) (s : SchedState)
    (h : WFTable s.table) : WFTable (poll_dense p ch s).table := by
  unfold poll_dense
  split
  · exact h
  · cases hl : lookupKey s.table p with
    | none => simpa [hl] using h
    | some t =>
      cases t with
      | sparse tid => simpa [hl] using h
      | dense tid r =>
        simp only [hl]
        by_cases hr :
            (if ch then DENSE_POLLING_DURATION_SEC else r - DENSE_POLLING_INTERVAL_SEC) > 0
        · rw [if_pos hr]
          exact WFTable_setKey _ _ h
        · rw [if_neg hr]
          exact WFTable_eraseKey _ h

theorem WFTable_poll_sparse (p : String) (ch : Bool) (s : SchedState)
    (h : WFTable s.table) : WFTable (poll_sparse p ch s).table := by
  unfold poll_sparse
  split
  · exact h
  · cases hl : lookupKey s.table p with
    | none => simpa [hl] using h
    | some t =>
      simp only [hl]
      by_cases hch : ch = true
      · rw [if_pos hch]
        exact WFTable_setKey _ _ h
      · rw [if_neg hch]
        exact WFTable_eraseKey _ h

theorem WFTable_step (s : SchedState) (op : SchedOp) (h : WFTable s.table) :
    WFTable (s.step op).table := by
  cases op with
  | start p n => exact WFTable_start_polling p n s h
  | tickDense p ch => exact WFTable_poll_dense p ch s h
  | tickSparse p ch => exact WFTable_poll_sparse p ch s h
  | stopAll => simp [SchedState.step, stop_all, WFTable]

theorem WFTable_foldl_step :
    ∀ (ops : List SchedOp) (s : SchedState), WFTable s.table →
      WFTable (ops.foldl SchedState.step s).table
  | [], _, h => h
  | op :: ops, s, h => WFTable_foldl_step ops (s.step op) (WFTable_step s op h)

theorem WFTable_runOps (ops : List SchedOp) : WFTable (runOps ops).table :=
  WFTable_foldl_step ops initSched (by simp [initSched, WFTable])

/-- C4: for every file path and every sequence of start / poll-tick / stop
operations, the task table holds at most one live task per path; starting a
new polling task for a path that already has one cancels the old task's
timer and installs exactly one fresh task for that path carrying the new
parameters (fresh timer, and for dense tasks the full duration budget). -/
theorem c4_at_most_one_task_per_path :
    (∀ (ops : List SchedOp) (p : String), countKey p (runOps ops).table ≤ 1) ∧
    (∀ (s : SchedState) (p : String) (n : Nat) (t : PTask), WFTable s.table →
      lookupKey s.table p = some t →
      countKey p (start_polling p n s).table = 1 ∧
      lookupKey (start_polling p n s).table p = some
        (if sizeBelowThreshold n then PTask.dense s.nextTimer DENSE_POLLING_DURATION_SEC
         else PTask.sparse s.nextTimer) ∧
      t.timerId ∈ (start_polling p n s).cancelled) := by
  constructor
  · intro ops p
    exact countKey_le_one (WFTable_runOps ops)
  · intro s p n t hwf hl
    refine ⟨?_, ?_, ?_⟩
    · rw [start_polling_table]
      exact countKey_setKey p _ hwf
    · rw [start_polling_table]
      exact lookupKey_setKey_self p _ s.table
    · simp only [start_polling, hl]
      exact List.mem_cons_self _ _

/-- C4 witness: restarting the task of a path that already holds a dense
task (timer 3) cancels timer 3 and leaves exactly one fresh task. -/
theorem c4_witness :
    countKey "C:\\Test\\small.xlsx" (start_polling "C:\\Test\\small.xlsx" 0 schedDense1).table = 1 ∧
    lookupKey (start_polling "C:\\Test\\small.xlsx" 0 schedDense1).table "C:\\Test\\small.xlsx"
      = some (if sizeBelowThreshold 0 then
          PTask.dense schedDense1.nextTimer DENSE_POLLING_DURATION_SEC
        else PTask.sparse schedDense1.nextTimer) ∧
    (PTask.dense 3 15).timerId ∈ (start_polling "C:\\Test\\small.xlsx" 0 schedDense1).cancelled :=
  c4_at_most_one_task_per_path.2 schedDense1 "C:\\Test\\small.xlsx" 0 (.dense 3 15)
    (by decide) (by decide)

theorem poll_dense_eq (s : SchedState) (p : String) (tid : Nat) (r : Int) (ch : Bool)
    (hstop : s.stopped = false) (ht : lookupKey s.table p = some (.dense tid r)) :
    poll_dense p ch s =
      (if (if ch then DENSE_POLLING_DURATION_SEC else r - DENSE_POLLING_INTERVAL_SEC) > 0 then
        { table := setKey p (.dense s.nextTimer
            (if ch then DENSE_POLLING_DURATION_SEC else r - DENSE_POLLING_INTERVAL_SEC)) s.table,
          cancelled := s.cancelled, nextTimer := s.nextTimer + 1, stopped := s.stopped }
      else
        { table := eraseKey p s.table, cancelled := s.cancelled,
          nextTimer := s.nextTimer, stopped := s.stopped }) := by
  unfold poll_dense
  rw [hstop]
  simp only [ht, Bool.false_eq_true, if_false]

theorem poll_sparse_eq_quiet (s : SchedState) (p : String) (t : PTask)
    (hstop : s.stopped = false) (ht : lookupKey s.table p = some t) :
    poll_sparse p false s =
      { table := eraseKey p s.table, cancelled := s.cancelled,
        nextTimer := s.nextTimer, stopped := s.stopped } := by
  unfold poll_sparse
  rw [hstop]
  simp only [ht, Bool.false_eq_true, if_false]

/-- C7: in dense mode every tick consults the Change Detector result: on
activity the remaining budget resets to the full
DENSE_POLLING_DURATION_SEC; on a silent tick it shrinks by one
DENSE_POLLING_INTERVAL_SEC and the task is retired exactly when the budget
is no longer positive — so a freshly reset task survives the first two
silent ticks (budgets 10 and 5) and is retired on the third. -/
theorem c7_dense_polling_budget (s : SchedState) (p : String) (tid : Nat) (r : Int)
    (hwf : WFTable s.table) (hstop : s.stopped = false)
    (ht : lookupKey s.table p = some (.dense tid r)) :
    lookupKey (poll_dense p true s).table p
        = some (.dense s.nextTimer DENSE_POLLING_DURATION_SEC) ∧
    (r - DENSE_POLLING_INTERVAL_SEC > 0 →
      lookupKey (poll_dense p false s).table p
        = some (.dense s.nextTimer (r - DENSE_POLLING_INTERVAL_SEC))) ∧
    (r - DENSE_POLLING_INTERVAL_SEC ≤ 0 →
      lookupKey (poll_dense p false s).table p = none) ∧
    (r = DENSE_POLLING_DURATION_SEC →
      lookupKey (poll_dense p false s).table p
        = some (.dense s.nextTimer (10 : Int)) ∧
      lookupKey (poll_dense p false (poll_dense p false s)).table p
        = some (.dense (poll_dense p false s).nextTimer (5 : Int)) ∧
      lookupKey (poll_dense p false (poll_dense p false (poll_dense p false s))).table p
        = none) := by
  have hpos : (DENSE_POLLING_DURATION_SEC : Int) > 0 := by
    simp [DENSE_POLLING_DURATION_SEC]
  refine ⟨?_, ?_, ?_, ?_⟩
  · rw [poll_dense_eq s p tid r true hstop ht]
    rw [if_pos (by simpa using hpos)]
    exact lookupKey_setKey_self p _ s.table
  · intro h
    rw [poll_dense_eq s p tid r false hstop ht]
    rw [if_pos (by simpa using h)]
    exact lookupKey_setKey_self p _ s.table
  · intro h
    rw [poll_dense_eq s p tid r false hstop ht]
    rw [if_neg (by simp; omega)]
    exact lookupKey_eraseKey_self p hwf
  · intro hr
    subst hr
    have h10 : DENSE_POLLING_DURATION_SEC - DENSE_POLLING_INTERVAL_SEC = (10 : Int) := by
      simp [DENSE_POLLING_DURATION_SEC, DENSE_POLLING_INTERVAL_SEC]
    have e1 : poll_dense p false s =
        { table := setKey p (.dense s.nextTimer (10 : Int)) s.table,
          cancelled := s.cancelled, nextTimer := s.nextTimer + 1, stopped := s.stopped } := by
      rw [poll_dense_eq s p tid _ false hstop ht]
      rw [if_pos (by rw [h10]; omega)]
      simp [h10]
    have ht1 : lookupKey (poll_dense p false s).table p = some (.dense s.nextTimer (10 : Int)) := by
      rw [e1]
      exact lookupKey_setKey_self p _ s.table
    have hstop1 : (poll_dense p false s).stopped = false := by rw [e1]; exact hstop
    have hwf1 : WFTable (poll_dense p false s).table := by
      rw [e1]
      exact WFTable_setKey p _ hwf
    have h5 : (10 : Int) - DENSE_POLLING_INTERVAL_SEC = 5 := by
      simp [DENSE_POLLING_INTERVAL_SEC]
    have e2 : poll_dense p false (poll_dense p false s) =
        { table := setKey p (.dense (poll_dense p false s).nextTimer (5 : Int))
            (poll_dense p false s).table,
          cancelled := (poll_dense p false s).cancelled,
          nextTimer := (poll_dense p false s).nextTimer + 1,
          stopped := (poll_dense p false s).stopped } := by
      rw [poll_dense_eq (poll_dense p false s) p s.nextTimer (10 : Int) false hstop1 ht1]
      rw [if_pos (by rw [h5]; omega)]
      simp [h5]
    have ht2 : lookupKey (poll_dense p false (poll_dense p false s)).table p
        = some (.dense (poll_dense p false s).nextTimer (5 : Int)) := by
      rw [e2]
      exact lookupKey_setKey_self p _ _
    have hstop2 : (poll_dense p false (poll_dense p false s)).stopped = false := by
      rw [e2]; exact hstop1
    have hwf2 : WFTable (poll_dense p false (poll_dense p false s)).table := by
      rw [e2]
      exact WFTable_setKey p _ hwf1
    refine ⟨ht1, ht2, ?_⟩
    rw [poll_dense_eq (poll_dense p false (poll_dense p false s)) p
      (poll_dense p false s).nextTimer (5 : Int) false hstop2 ht2]
    rw [if_neg (by simp [DENSE_POLLING_INTERVAL_SEC])]
    exact lookupKey_eraseKey_self p hwf2

/-- C7 witness: the concrete dense task of `schedDense1` (budget 15) resets
on an active tick and retires on the third silent tick. -/
theorem c7_witness :
    lookupKey (poll_dense "C:\\Test\\small.xlsx" true schedDense1).table "C:\\Test\\small.xlsx"
        = some (.dense schedDense1.nextTimer DENSE_POLLING_DURATION_SEC) ∧
    ((15 : Int) - DENSE_POLLING_INTERVAL_SEC > 0 →
      lookupKey (poll_dense "C:\\Test\\small.xlsx" false schedDense1).table "C:\\Test\\small.xlsx"
        = some (.dense schedDense1.nextTimer ((15 : Int) - DENSE_POLLING_INTERVAL_SEC))) ∧
    ((15 : Int) - DENSE_POLLING_INTERVAL_SEC ≤ 0 →
      lookupKey (poll_dense "C:\\Test\\small.xlsx" false schedDense1).table "C:\\Test\\small.xlsx"
        = none) ∧
    ((15 : Int) = DENSE_POLLING_DURATION_SEC →
      lookupKey (poll_dense "C:\\Test\\small.xlsx" false schedDense1).table "C:\\Test\\small.xlsx"
        = some (.dense schedDense1.nextTimer (10 : Int)) ∧
      lookupKey (poll_dense "C:\\Test\\small.xlsx" false
          (poll_dense "C:\\Test\\small.xlsx" false schedDense1)).table "C:\\Test\\small.xlsx"
        = some (.dense (poll_dense "C:\\Test\\small.xlsx" false schedDense1).nextTimer (5 : Int)) ∧
      lookupKey (poll_dense "C:\\Test\\small.xlsx" false (poll_dense "C:\\Test\\small.xlsx" false
          (poll_dense "C:\\Test\\small.xlsx" false schedDense1))).table "C:\\Test\\small.xlsx"
        = none) :=
  c7_dense_polling_budget schedDense1 "C:\\Test\\small.xlsx" 3 15 (by decide) rfl (by decide)

/-- C1 counterexample: a cycle that detects a change persists a baseline
whose content_hash is the string "updated_{epoch}", which is not
hash_excel_content of the snapshot stored in its cells field. -/
theorem c1_counterexample :
    compare_excel_changes envChange = (true, some savedChange) ∧
    hash_excel_content (some savedChange.cells) ≠ some savedChange.content_hash := by
  constructor
  · decide
  · decide

/-- C1 (amended): when compare_excel_changes reports a change and is not
silent, the Baseline it persists carries the new snapshot, the freshly-read
last author and the current timestamp, but its content_hash is the literal
string "updated_" followed by the integer epoch time — not the
hash_excel_content fingerprint of the snapshot. -/
theorem c1_baseline_persisted_fields (env : CompareEnv)
    (h1 : (compare_excel_changes env).1 = true) (h2 : env.silent = false) :
    ∃ c, env.current = some c ∧
      (compare_excel_changes env).2 = some
        { last_author := env.author, content_hash := "updated_" ++ toString env.nowEpoch,
          cells := c, timestamp := env.nowIso } := by
  rcases env with ⟨eb, ec, ea, es, en, ei⟩
  simp only at h1 h2 ⊢
  subst h2
  cases eb with
  | none => simp [compare_excel_changes] at h1
  | some b =>
    cases ec with
    | none => simp [compare_excel_changes] at h1
    | some c =>
      refine ⟨c, rfl, ?_⟩
      simp only [compare_excel_changes] at h1 ⊢
      by_cases hemp : c.isEmpty = true
      · rw [if_pos hemp] at h1
        simp at h1
      · rw [if_neg hemp] at h1 ⊢
        by_cases heq : snapshotPyEqb b.cells c = true
        · rw [if_pos heq] at h1
          simp at h1
        · rw [if_neg heq] at h1 ⊢
          cases hh : hasChanges b.cells c with
          | false =>
            rw [hh] at h1
            simp at h1
          | true =>
            simp

/-- C1 witness: the amended statement applied to the concrete changed
cycle `envChange`. -/
theorem c1_witness :
    ∃ c, envChange.current = some c ∧
      (compare_excel_changes envChange).2 = some
        { last_author := envChange.author,
          content_hash := "updated_" ++ toString envChange.nowEpoch,
          cells := c, timestamp := envChange.nowIso } :=
  c1_baseline_persisted_fields envChange (by decide) rfl

/-- C2 counterexample: a cycle whose extraction failed returns exactly the
same result as a genuinely quiet cycle (False, nothing persisted), and a
sparse polling tick fed that result retires the task instead of keeping it
alive for a retry. -/
theorem c2_counterexample :
    compare_excel_changes envFail = compare_excel_changes envQuiet ∧
    compare_excel_changes envFail = (false, none) ∧
    lookupKey (poll_sparse "C:\\Test\\big.xlsx" (compare_excel_changes envFail).1
      schedSparse1).table "C:\\Test\\big.xlsx" = none := by
  refine ⟨by decide, by decide, by decide⟩

/-- C2 (amended): if extraction fails for a file that has a baseline, the
cycle is abandoned with no baseline save, but the failure is reported as the
same False that "no change" produces, and a sparse polling tick on that
result retires the task rather than keeping it for retries. -/
theorem c2_extraction_failure (env : CompareEnv) (b : Baseline)
    (hb : env.baseline = some b) (hc : env.current = none)
    (s : SchedState) (p : String) (t : PTask)
    (hstop : s.stopped = false) (ht : lookupKey s.table p = some t)
    (hwf : WFTable s.table) :
    compare_excel_changes env = (false, none) ∧
    lookupKey (poll_sparse p (compare_excel_changes env).1 s).table p = none := by
  have hcomp : compare_excel_changes env = (false, none) := by
    unfold compare_excel_changes
    rw [hb, hc]
  refine ⟨hcomp, ?_⟩
  rw [hcomp]
  rw [poll_sparse_eq_quiet s p t hstop ht]
  exact lookupKey_eraseKey_self p hwf

/-- C2 witness: the amended statement at the concrete failing cycle
`envFail` and the one-task sparse scheduler state. -/
theorem c2_witness :
    compare_excel_changes envFail = (false, none) ∧
    lookupKey (poll_sparse "C:\\Test\\big.xlsx" (compare_excel_changes envFail).1
      schedSparse1).table "C:\\Test\\big.xlsx" = none :=
  c2_extraction_failure envFail baseRec1 rfl rfl schedSparse1 "C:\\Test\\big.xlsx"
    (.sparse 0) rfl (by decide) (by decide)

theorem foldl_if_append {β γ : Type} (p : β → Bool) (e : β → γ) :
    ∀ (l : List β) (acc : List γ),
      l.foldl (fun a c => if p c then a ++ [e c] else a) acc
        = acc ++ l.filterMap (fun c => if p c then some (e c) else none)
  | [], acc => by simp
  | x :: xs, acc => by
    simp only [List.foldl_cons, List.filterMap_cons]
    cases hx : p x
    · simp only [hx, Bool.false_eq_true, if_false]
      rw [foldl_if_append p e xs acc]
    · simp only [hx, if_true]
      rw [foldl_if_append p e xs (acc ++ [e x])]
      simp

theorem foldl_ifnot_append {β γ : Type} (p : β → Bool) (e : β → γ) :
    ∀ (l : List β) (acc : List γ),
      l.foldl (fun a c => if p c then a else a ++ [e c]) acc
        = acc ++ l.filterMap (fun c => if p c then none else some (e c))
  | [], acc => by simp
  | x :: xs, acc => by
    simp only [List.foldl_cons, List.filterMap_cons]
    cases hx : p x
    · simp only [hx, Bool.false_eq_true, if_false]
      rw [foldl_ifnot_append p e xs (acc ++ [e x])]
      simp
    · simp only [hx, if_true]
      rw [foldl_ifnot_append p e xs acc]

theorem lookupKey_filterMap_entry {β γ : Type} (p : β → Bool) (e : β → String × γ) :
    ∀ {l : List β} {c : β}, (l.map (fun x => (e x).1)).Nodup → c ∈ l → p c = true →
      lookupKey (l.filterMap (fun x => if p x then some (e x) else none)) (e c).1
        = some (e c).2
  | [], c, _, hc, _ => absurd hc (List.not_mem_nil c)
  | x :: xs, c, hn, hc, hp => by
    rw [List.map_cons, List.nodup_cons] at hn
    rcases List.mem_cons.mp hc with rfl | hc2
    · simp only [List.filterMap_cons, hp, if_true, lookupKey, if_pos rfl]
    · have hkey : (e x).1 ≠ (e c).1 := by
        intro he
        exact hn.1 (he ▸ List.mem_map.mpr ⟨c, hc2, rfl⟩)
      cases hpx : p x
      · simp only [List.filterMap_cons, hpx, Bool.false_eq_true, if_false]
        exact lookupKey_filterMap_entry p e hn.2 hc2 hp
      · simp only [List.filterMap_cons, hpx, if_true, lookupKey, hkey, if_false]
        exact lookupKey_filterMap_entry p e hn.2 hc2 hp

theorem lookupKey_filterMap_entry_skip {β γ : Type} (p : β → Bool) (e : β → String × γ) :
    ∀ {l : List β} {c : β}, (l.map (fun x => (e x).1)).Nodup → c ∈ l → p c = false →
      lookupKey (l.filterMap (fun x => if p x then none else some (e x))) (e c).1
        = some (e c).2
  | [], c, _, hc, _ => absurd hc (List.not_mem_nil c)
  | x :: xs, c, hn, hc, hp => by
    rw [List.map_cons, List.nodup_cons] at hn
    rcases List.mem_cons.mp hc with rfl | hc2
    · simp [List.filterMap_cons, hp, lookupKey]
    · have hkey : (e x).1 ≠ (e c).1 := by
        intro he
        exact hn.1 (he ▸ List.mem_map.mpr ⟨c, hc2, rfl⟩)
      cases hpx : p x
      · simp only [List.filterMap_cons, hpx, Bool.false_eq_true, if_false, lookupKey,
          hkey, if_false]
        exact lookupKey_filterMap_entry_skip p e hn.2 hc2 hp
      · simp only [List.filterMap_cons, hpx, if_true]
        exact lookupKey_filterMap_entry_skip p e hn.2 hc2 hp

theorem dumpSheet_eq (s : Sheet) (hdim : s.maxRow > 1 ∨ s.maxCol > 1) :
    dumpSheet s = s.rows.flatten.filterMap
      (fun c => if keepCell c then some (cellEntry c) else none) := by
  have hb : (decide (s.maxRow > 1) || decide (s.maxCol > 1)) = true := by
    rcases hdim with h | h <;> simp [h]
  unfold dumpSheet
  rw [if_pos hb]
  rw [foldl_if_append keepCell cellEntry s.rows.flatten []]
  simp

/-- C3 (amended): every worksheet whose reported dimensions exceed a single
cell contributes every non-empty cell to the snapshot; the snapshot maps the
worksheet title to a map holding every kept cell's record.  (Worksheets with
max_row = max_column = 1 — data confined to A1 — are skipped by the guard,
see the counterexample.) -/
theorem c3_snapshot_contains_cells (wb : Workbook) (s : Sheet) (c : RawCell)
    (hT : (wb.sheets.map Sheet.title).Nodup) (hs : s ∈ wb.sheets)
    (hC : (s.rows.flatten.map RawCell.coordinate).Nodup)
    (hdim : s.maxRow > 1 ∨ s.maxCol > 1)
    (hc : c ∈ s.rows.flatten) (hk : keepCell c = true) :
    ∃ d, lookupKey (dump_excel_cells_with_timeout wb) s.title = some d ∧
      lookupKey d c.coordinate
        = some ⟨get_cell_formula c, serialize_cell_value c.value⟩ := by
  have hinner : lookupKey (dumpSheet s) c.coordinate
      = some ⟨get_cell_formula c, serialize_cell_value c.value⟩ := by
    rw [dumpSheet_eq s hdim]
    exact lookupKey_filterMap_entry keepCell cellEntry hC hc hk
  have hne : (dumpSheet s).isEmpty = false := by
    cases hd : dumpSheet s with
    | nil => rw [hd] at hinner; exact absurd hinner (by simp [lookupKey])
    | cons a t => rfl
  have houter : lookupKey (dump_excel_cells_with_timeout wb) s.title
      = some (dumpSheet s) := by
    unfold dump_excel_cells_with_timeout
    rw [foldl_ifnot_append (fun s => (dumpSheet s).isEmpty)
      (fun s => (s.title, dumpSheet s)) wb.sheets []]
    simp only [List.nil_append]
    exact lookupKey_filterMap_entry_skip (fun s => (dumpSheet s).isEmpty)
      (fun s => (s.title, dumpSheet s)) hT hs hne
  exact ⟨dumpSheet s, houter, hinner⟩

/-- C3 witness: a 2-row worksheet with one value cell is fully captured. -/
theorem c3_witness :
    ∃ d, lookupKey (dump_excel_cells_with_timeout
        ⟨[{ title := "S2", maxRow := 2, maxCol := 1,
            rows := [[{ coordinate := "A1", dataType := 'n', value := .int 3 }],
                     [{ coordinate := "A2", dataType := 'n', value := .noneV }]] }]⟩) "S2"
        = some d ∧
      lookupKey d "A1" = some ⟨get_cell_formula
          { coordinate := "A1", dataType := 'n', value := .int 3 },
        serialize_cell_value (.int 3)⟩ :=
  c3_snapshot_contains_cells
    ⟨[{ title := "S2", maxRow := 2, maxCol := 1,
        rows := [[{ coordinate := "A1", dataType := 'n', value := .int 3 }],
                 [{ coordinate := "A2", dataType := 'n', value := .noneV }]] }]⟩
    { title := "S2", maxRow := 2, maxCol := 1,
      rows := [[{ coordinate := "A1", dataType := 'n', value := .int 3 }],
               [{ coordinate := "A2", dataType := 'n', value := .noneV }]] }
    { coordinate := "A1", dataType := 'n', value := .int 3 }
    (by decide) (by decide) (by decide) (by decide) (by decide) (by decide)

/-- C3 counterexample: a consistent workbook whose only worksheet holds one
non-empty cell at A1 (openpyxl reports a 1x1 used range) produces an empty
snapshot — the worksheet contributes nothing at all. -/
theorem c3_counterexample :
    Workbook.consistent wbA1only = true ∧
    (∃ s ∈ wbA1only.sheets, ∃ c ∈ s.rows.flatten, keepCell c = true) ∧
    dump_excel_cells_with_timeout wbA1only = [] := by
  refine ⟨by decide, by decide, by decide⟩

/-- C5 counterexample: the store holds the lz4 artifact of a.xlsx (so the
source path "had a baseline artifact in the store"), yet on_moved treats the
destination as a newly seen file and seeds it, because the existence check
uses the extensionless baseline path. -/
theorem c5_counterexample :
    hasBaselineArtifact "a.xlsx" storeLz4 = true ∧
    on_moved false "C:\\w\\a.xlsx" "C:\\w\\b.xlsx" storeLz4
      = (.seeded "C:\\w\\b.xlsx", storeLz4) := by
  refine ⟨by decide, by decide⟩

/-- C5 (amended): on a rename of a supported file, the baseline artifact is
renamed only when a file exists at the *extensionless* baseline path of the
source; otherwise — in particular for artifacts stored under the codec
extensions — the destination is seeded as a newly seen file. -/
theorem c5_rename_or_seed (srcPath destPath : String) (store : List String)
    (hsup : isSupportedPath destPath = true) :
    (store.contains (baseline_file_path (basename srcPath)) = true →
      on_moved false srcPath destPath store
        = (.renamed (baseline_file_path (basename srcPath))
            (baseline_file_path (basename destPath)),
           removePath (baseline_file_path (basename srcPath)) store
             ++ [baseline_file_path (basename destPath)])) ∧
    (store.contains (baseline_file_path (basename srcPath)) = false →
      on_moved false srcPath destPath store = (.seeded destPath, store)) := by
  constructor
  · intro h
    have hm : baseline_file_path (basename srcPath) ∈ store := by simpa using h
    simp [on_moved, hsup, hm]
  · intro h
    have hm : baseline_file_path (basename srcPath) ∉ store := by simpa using h
    simp [on_moved, hsup, hm]

/-- C5 witness: with an artifact at the extensionless path the rename branch
fires; with only a codec-extension artifact the seeding branch fires. -/
theorem c5_witness :
    on_moved false "C:\\w\\a.xlsx" "C:\\w\\b.xlsx" [baseline_file_path "a.xlsx"]
      = (.renamed (baseline_file_path (basename "C:\\w\\a.xlsx"))
          (baseline_file_path (basename "C:\\w\\b.xlsx")),
         removePath (baseline_file_path (basename "C:\\w\\a.xlsx"))
             [baseline_file_path "a.xlsx"]
           ++ [baseline_file_path (basename "C:\\w\\b.xlsx")]) ∧
    on_moved false "C:\\w\\a.xlsx" "C:\\w\\b.xlsx" storeLz4
      = (.seeded "C:\\w\\b.xlsx", storeLz4) :=
  ⟨(c5_rename_or_seed "C:\\w\\a.xlsx" "C:\\w\\b.xlsx" [baseline_file_path "a.xlsx"]
      (by decide)).1 (by decide),
   (c5_rename_or_seed "C:\\w\\a.xlsx" "C:\\w\\b.xlsx" storeLz4 (by decide)).2 (by decide)⟩

theorem string_append_right_inj {a b c : String} (h : a ++ b = a ++ c) : b = c := by
  have h2 : (a ++ b).data = (a ++ c).data := by rw [h]
  rw [String.data_append, String.data_append] at h2
  have h3 := List.append_cancel_left h2
  cases b
  cases c
  exact congrArg String.mk h3

theorem not_mem_cleanup (defaultFmt f : Fmt) (hne : f ≠ defaultFmt) (name : String)
    (store : List String) :
    artifactPath f name ∉ cleanupOldFormats defaultFmt (baseline_file_path name) store := by
  intro hmem
  cases f <;> cases defaultFmt <;>
    simp [cleanupOldFormats, removePath, artifactPath, Fmt.ext, List.mem_filter]
      at hmem hne

/-- C6 counterexample: the store holds only the gzip artifact of a.xlsx, the
configured default codec is lz4, and the save fails: save_baseline
nevertheless deletes the gzip artifact first, so the failed save leaves no
artifact at all — the removal happened before the save, not after. -/
theorem c6_counterexample :
    hasBaselineArtifact "a.xlsx" storeGz = true ∧
    save_baseline .lz4 false "a.xlsx" storeGz = (false, []) ∧
    hasBaselineArtifact "a.xlsx" (save_baseline .lz4 false "a.xlsx" storeGz).2 = false := by
  refine ⟨by decide, by decide, by decide⟩

/-- C6 (amended): save_baseline removes stale artifacts under the other
codec extensions *before* attempting the save; on failure the store is left
with the cleanup already applied (a prior other-codec artifact is gone), and
after a successful save exactly the default-codec artifact of the key
remains. -/
theorem c6_cleanup_before_save (defaultFmt : Fmt) (name : String) (store : List String) :
    (save_baseline defaultFmt false name store).2
        = cleanupOldFormats defaultFmt (baseline_file_path name) store ∧
    (save_baseline defaultFmt true name store).2
        = removePath (artifactPath defaultFmt name)
            (cleanupOldFormats defaultFmt (baseline_file_path name) store)
          ++ [artifactPath defaultFmt name] ∧
    (∀ f : Fmt, f ≠ defaultFmt → ∀ b : Bool,
        artifactPath f name ∉ (save_baseline defaultFmt b name store).2) ∧
    artifactPath defaultFmt name ∈ (save_baseline defaultFmt true name store).2 := by
  refine ⟨rfl, by simp [save_baseline, artifactPath], ?_, ?_⟩
  · intro f hne b
    cases b
    · exact not_mem_cleanup defaultFmt f hne name store
    · intro hmem
      have hmem2 : artifactPath f name ∈
          removePath (artifactPath defaultFmt name)
            (cleanupOldFormats defaultFmt (baseline_file_path name) store)
          ++ [artifactPath defaultFmt name] := hmem
      rcases List.mem_append.mp hmem2 with h | h
      · exact not_mem_cleanup defaultFmt f hne name store (List.mem_filter.mp h).1
      · have heq : artifactPath f name = artifactPath defaultFmt name := by simpa using h
        have hext : f.ext = defaultFmt.ext := string_append_right_inj heq
        apply hne
        cases f <;> cases defaultFmt <;>
          first
            | rfl
            | exact absurd hext (by decide)
  · exact List.mem_append_right _ (by simp [artifactPath])

/-- C6 witness: the amended statement at the concrete gzip-artifact store
with default codec lz4. -/
theorem c6_witness :
    (save_baseline .lz4 false "a.xlsx" storeGz).2
        = cleanupOldFormats .lz4 (baseline_file_path "a.xlsx") storeGz ∧
    artifactPath .gzip "a.xlsx" ∉ (save_baseline .lz4 true "a.xlsx" storeGz).2 ∧
    artifactPath .lz4 "a.xlsx" ∈ (save_baseline .lz4 true "a.xlsx" storeGz).2 :=
  ⟨(c6_cleanup_before_save .lz4 "a.xlsx" storeGz).1,
   (c6_cleanup_before_save .lz4 "a.xlsx" storeGz).2.2.1 .gzip (by decide) true,
   (c6_cleanup_before_save .lz4 "a.xlsx" storeGz).2.2.2⟩

/-- C8 counterexample: at a cell whose formula is the empty string on both
sides (equal, non-null, no external-reference pattern) with differing
values, the classifier returns DIRECT_VALUE_CHANGE, not INDIRECT_CHANGE:
Python's `not formula` treats "" as "no formula". -/
theorem c8_counterexample :
    classify_change_type (some ⟨some "", some (.int 1)⟩) (some ⟨some "", some (.int 2)⟩)
        = "DIRECT_VALUE_CHANGE" ∧
    cellFormula (some ⟨some "", some (.int 1)⟩)
        = cellFormula (some ⟨some "", some (.int 2)⟩) ∧
    cellFormula (some ⟨some "", some (.int 1)⟩) ≠ none ∧
    optPyEq (cellVal (some ⟨some "", some (.int 1)⟩))
        (cellVal (some ⟨some "", some (.int 2)⟩)) = false ∧
    has_external_reference (cellFormula (some ⟨some "", some (.int 1)⟩)) = false := by
  refine ⟨by decide, by decide, by decide, by decide, by decide⟩

/-- C8 (amended): when both cells carry the same non-null, *non-empty*
formula, the values differ and the formula matches no external-reference
pattern, the classifier returns INDIRECT_CHANGE; and DIRECT_VALUE_CHANGE is
returned only when neither side has a truthy (non-empty) formula, the two
formula fields are equal, and the values differ. -/
theorem c8_indirect_vs_direct (oc nc : Option CellRec) :
    (∀ fs : String, cellFormula oc = some fs → cellFormula nc = some fs → fs ≠ "" →
      optPyEq (cellVal oc) (cellVal nc) = false →
      has_external_reference (some fs) = false →
      classify_change_type oc nc = "INDIRECT_CHANGE") ∧
    (classify_change_type oc nc = "DIRECT_VALUE_CHANGE" →
      strFalsy (cellFormula oc) = true ∧ strFalsy (cellFormula nc) = true ∧
      cellFormula oc = cellFormula nc ∧
      optPyEq (cellVal oc) (cellVal nc) = false) := by
  constructor
  · intro fs hof hnf hfs hv hext
    cases oc with
    | none => simp [cellFormula] at hof
    | some c1 =>
      cases nc with
      | none => simp [cellFormula] at hnf
      | some c2 =>
        simp only [cellFormula] at hof hnf
        simp only [cellVal] at hv
        simp [classify_change_type, cellFormula, cellVal, hof, hnf, strFalsy, hfs, hv, hext]
  · intro h
    unfold classify_change_type at h
    by_cases h1 : (oc.isNone && nc.isSome) = true
    · rw [if_pos h1] at h
      simp at h
    · rw [if_neg h1] at h
      by_cases h2 : (oc.isSome && nc.isNone) = true
      · rw [if_pos h2] at h
        simp at h
      · rw [if_neg h2] at h
        by_cases h3 : (cellFormula oc != cellFormula nc) = true
        · rw [if_pos h3] at h
          simp at h
        · rw [if_neg h3] at h
          have heq : cellFormula oc = cellFormula nc := by simpa using h3
          by_cases h4 : (strFalsy (cellFormula oc) && strFalsy (cellFormula nc)
              && !optPyEq (cellVal oc) (cellVal nc)) = true
          · simp only [Bool.and_eq_true, Bool.not_eq_true'] at h4
            exact ⟨h4.1.1, h4.1.2, heq, h4.2⟩
          · rw [if_neg h4] at h
            by_cases h5 : (!strFalsy (cellFormula oc) && !strFalsy (cellFormula nc)
                && (cellFormula oc == cellFormula nc)
                && !optPyEq (cellVal oc) (cellVal nc)) = true
            · rw [if_pos h5] at h
              by_cases h6 : has_external_reference (cellFormula oc) = true
              · rw [if_pos h6] at h
                simp at h
              · rw [if_neg h6] at h
                simp at h
            · rw [if_neg h5] at h
              simp at h

/-- C8 witness: a genuine indirect change (formula "=A1+1" unchanged, value
2 -> 3) classifies as INDIRECT_CHANGE, and a DIRECT_VALUE_CHANGE result
implies formula-less equal-formula differing-value cells. -/
theorem c8_witness :
    classify_change_type (some ⟨some "=A1+1", some (.int 2)⟩)
        (some ⟨some "=A1+1", some (.int 3)⟩) = "INDIRECT_CHANGE" ∧
    (classify_change_type (some ⟨none, some (.int 1)⟩) (some ⟨none, some (.int 2)⟩)
        = "DIRECT_VALUE_CHANGE" →
      strFalsy (cellFormula (some ⟨none, some (.int 1)⟩)) = true ∧
      strFalsy (cellFormula (some ⟨none, some (.int 2)⟩)) = true ∧
      cellFormula (some ⟨none, some (.int 1)⟩)
          = cellFormula (some ⟨none, some (.int 2)⟩) ∧
      optPyEq (cellVal (some ⟨none, some (.int 1)⟩))
          (cellVal (some ⟨none, some (.int 2)⟩)) = false) :=
  ⟨(c8_indirect_vs_direct (some ⟨some "=A1+1", some (.int 2)⟩)
      (some ⟨some "=A1+1", some (.int 3)⟩)).1 "=A1+1" rfl rfl (by decide) (by decide)
      (by decide),
   (c8_indirect_vs_direct (some ⟨none, some (.int 1)⟩) (some ⟨none, some (.int 2)⟩)).2⟩

/-- C10: copy_to_cache is total — it returns either the local cache path or
the original network path; caching disabled yields the original path; an
existing fresh cached copy is reused without copying; a stale or absent
cached copy triggers a fresh copy; a missing, unreadable source or a failed
directory creation yields the original path. -/
theorem c10_copy_to_cache_total (env : CacheEnv) :
    ((copy_to_cache env).1 = cacheFilePath env ∨ (copy_to_cache env).1 = env.networkPath) ∧
    (env.useLocalCache = false → copy_to_cache env = (env.networkPath, false)) ∧
    (env.useLocalCache = true → env.makedirsOk = true → env.srcExists = true →
      env.srcReadable = true → env.cacheExists = true → env.mtimeFresh = some true →
      copy_to_cache env = (cacheFilePath env, false)) ∧
    (env.useLocalCache = true → env.makedirsOk = true → env.srcExists = true →
      env.srcReadable = true → (env.cacheExists && env.mtimeFresh == some true) = false →
      env.getsizeOk = true → env.copyOk = true →
      copy_to_cache env = (cacheFilePath env, true)) ∧
    (env.srcExists = false ∨ env.srcReadable = false ∨ env.makedirsOk = false →
      copy_to_cache env = (env.networkPath, false)) := by
  refine ⟨?_, ?_, ?_, ?_, ?_⟩
  · unfold copy_to_cache
    split_ifs <;> simp
  · intro h
    simp [copy_to_cache, h]
  · intro h1 h2 h3 h4 h5 h6
    simp [copy_to_cache, h1, h2, h3, h4, h5, h6]
  · intro h1 h2 h3 h4 h5 h6 h7
    simp [copy_to_cache, h1, h2, h3, h4, h5, h6, h7]
  · intro h
    unfold copy_to_cache
    rcases h with h | h | h <;> split_ifs <;> simp_all

/-- C10 witness: a fresh cached copy is reused; a missing source falls back
to the original path. -/
theorem c10_witness :
    copy_to_cache cacheEnvFresh = (cacheFilePath cacheEnvFresh, false) ∧
    copy_to_cache cacheEnvMissing = (cacheEnvMissing.networkPath, false) :=
  ⟨(c10_copy_to_cache_total cacheEnvFresh).2.2.1 rfl rfl rfl rfl rfl rfl,
   (c10_copy_to_cache_total cacheEnvMissing).2.2.2.2 (Or.inl rfl)⟩
